import Mathlib

/-!
Shallow embedding of the CareerMate career-advisor repository
(`Assinment4_agent.py` and `career_mate_app.py`).

Python strings are modelled as Lean `String`; the Python string methods the
code uses (`lower`, `strip`, `split("\n")`, the `in` substring operator,
`replace`) are embedded as executable functions over the character list, with
Python's semantics on the ASCII data the repository uses.  The three tools are
embedded in state-passing style: a tool receives the `CareerContext` store the
SDK passes through the `RunContextWrapper` and returns the (possibly updated)
store alongside its result, so frame properties are visible in the embedding.
A tool that returns a JSON error object is modelled as returning
`Except.error` with the error message; a successful structured payload is
`Except.ok`.
-/

/-- Python `str.lower()` (character-wise lowercasing; exact on the ASCII data
used by the repository). -/
def pyLower (s : String) : String := ⟨s.data.map Char.toLower⟩

/-- Python's default whitespace set for `str.strip()`. -/
def pyIsSpace (c : Char) : Bool :=
  c == ' ' || c == '\t' || c == '\n' || c == '\r' || c == '\x0b' || c == '\x0c'

/-- Python `str.strip()`: drop whitespace from both ends. -/
def pyStrip (s : String) : String :=
  ⟨((s.data.dropWhile pyIsSpace).reverse.dropWhile pyIsSpace).reverse⟩

/-- Split a character list on every occurrence of `sep`; `[]` yields `[[]]`,
matching Python's `"".split(sep) == [""]`. -/
def splitOnChar (sep : Char) : List Char → List (List Char)
  | [] => [[]]
  | c :: rest =>
    let r := splitOnChar sep rest
    if c == sep then [] :: r
    else
      match r with
      | [] => [[c]]
      | h :: t => (c :: h) :: t

/-- Python `s.split("\n")`. -/
def pySplitNl (s : String) : List String :=
  (splitOnChar '\n' s.data).map (fun l => ⟨l⟩)

/-- Contiguous-sublist test on character lists: `containsSub needle hay` is
true when `needle` occurs contiguously inside `hay` (the empty needle occurs
in everything, as in Python). -/
def containsSub (needle : List Char) : List Char → Bool
  | [] => needle.isEmpty
  | c :: rest => needle.isPrefixOf (c :: rest) || containsSub needle rest

/-- Python's substring operator `needle in haystack`. -/
def pyInStr (needle haystack : String) : Bool := containsSub needle.data haystack.data

/-- Python `s.replace(old, new)` for one-character `old` and `new` (the only
form the repository uses, in the job-link slug). -/
def pyReplaceChar (s : String) (old new : Char) : String :=
  ⟨s.data.map (fun c => if c == old then new else c)⟩

/-- Python `dict.get(k)` on a table held as a key-value list (the repository's
dict literals, in declaration order). -/
def dictGet {α : Type} (tbl : List (String × α)) (k : String) : Option α :=
  (tbl.find? (fun p => p.1 == k)).map (fun p => p.2)

/-- The shared user context (`CareerContext` dataclass). -/
structure CareerContext where
  user_id : String
  current_skills : List String
deriving Repr, DecidableEq

/-- Structured output of the skill-gap tool (`SkillGapAnalysis` model). -/
structure SkillGapAnalysis where
  target_job : String
  user_skills : List String
  required_skills : List String
  missing_skills : List String
  notes : String
deriving Repr, DecidableEq

/-- Structured output of the job-finder tool (`JobListing` model). -/
structure JobListing where
  job_title : String
  company : String
  location : String
  required_skills : List String
  link_to_apply : String
deriving Repr, DecidableEq

/-- Structured output of the course-recommender tool
(`CourseRecommendation` model). -/
structure CourseRecommendation where
  skill_to_learn : String
  course_title : String
  platform : String
  link : String
deriving Repr, DecidableEq

/-- One raw entry of the static `JOB_LISTINGS` table. -/
structure JobPosting where
  title : String
  company : String
  location : String
  skills : List String
deriving Repr, DecidableEq

/-- One raw entry of a `COURSE_CATALOG` value list. -/
structure Course where
  title : String
  platform : String
  link : String
deriving Repr, DecidableEq

/-- The `JOB_SKILLS` dict: role (lowercase key) to required skills. -/
def JOB_SKILLS : List (String × List String) :=
  [("data scientist", ["Python", "SQL", "Statistics", "Machine Learning", "Pandas", "Scikit-learn"]),
   ("software engineer", ["Python", "Java", "Data Structures", "Algorithms", "Git", "Docker"]),
   ("product manager", ["Product Strategy", "User Research", "Agile Methodologies", "Roadmapping"]),
   ("ux designer", ["Figma", "User Research", "Wireframing", "Prototyping", "Interaction Design"])]

/-- The static `JOB_LISTINGS` table. -/
def JOB_LISTINGS : List JobPosting :=
  [{ title := "Senior Data Scientist", company := "Innovate AI", location := "Remote",
     skills := ["Python", "Machine Learning", "TensorFlow"] },
   { title := "Backend Software Engineer", company := "Tech Solutions Inc.", location := "New York, NY",
     skills := ["Python", "Java", "Docker", "Kubernetes"] },
   { title := "Junior Data Scientist", company := "Data Insights Co.", location := "San Francisco, CA",
     skills := ["Python", "SQL", "Pandas"] },
   { title := "Product Manager, Growth", company := "ConnectApp", location := "Remote",
     skills := ["Product Strategy", "Agile Methodologies", "A/B Testing"] }]

/-- The `COURSE_CATALOG` dict: skill (lowercase key) to courses. -/
def COURSE_CATALOG : List (String × List Course) :=
  [("sql", [{ title := "Complete SQL Bootcamp", platform := "Udemy",
              link := "udemy.com/course/sql-bootcamp" }]),
   ("statistics", [{ title := "Statistics with Python", platform := "Coursera",
                     link := "coursera.org/specializations/statistics-with-python" }]),
   ("pandas", [{ title := "Data Analysis with Pandas", platform := "DataCamp",
                 link := "datacamp.com/courses/data-manipulation-with-pandas" }]),
   ("python", [{ title := "Python for Everybody", platform := "Coursera",
                 link := "coursera.org/specializations/python" }])]

/-- The `get_missing_skills` tool.  The body only reads
`wrapper.context.current_skills`; every `return` statement leaves the store
untouched, which the state-passing embedding makes explicit per branch.
An unknown (or empty-valued) role key returns the JSON error object, embedded
as `Except.error` with the same message. -/
def get_missing_skills (wrapper : CareerContext) (target_job : String) :
    CareerContext × Except String SkillGapAnalysis :=
  let target_job_lower := pyLower target_job
  let user_skills := wrapper.current_skills
  match dictGet JOB_SKILLS target_job_lower with
  | none =>
      (wrapper, Except.error ("Sorry, I don\x27t have skill information for \x27" ++
        target_job ++ "\x27. Please try another role."))
  | some required_skills =>
      if required_skills.isEmpty then
        (wrapper, Except.error ("Sorry, I don\x27t have skill information for \x27" ++
          target_job ++ "\x27. Please try another role."))
      else
        let missing_skills := required_skills.filter (fun skill => !(user_skills.contains skill))
        (wrapper, Except.ok
          { target_job := target_job
            user_skills := user_skills
            required_skills := required_skills
            missing_skills := missing_skills
            notes :=
              if missing_skills.isEmpty then
                "You have all the required skills for this role!"
              else
                "You have a good foundation! Focusing on these " ++
                  toString missing_skills.length ++ " skills will be a great next step." })

/-- Build the `JobListing` payload appended for a matching job, including the
derived application link `https://example.com/jobs/` + slug. -/
def mkJobListing (job : JobPosting) : JobListing :=
  { job_title := job.title
    company := job.company
    location := job.location
    required_skills := job.skills
    link_to_apply := "https://example.com/jobs/" ++ pyLower (pyReplaceChar job.title ' ' '-') }

/-- The `continue` guard of the `find_jobs` loop:
`location and location.lower() not in job["location"].lower()`.
A `None` or empty-string location is falsy in Python, so it never excludes. -/
def locationExcludes (location : Option String) (jobLocation : String) : Bool :=
  match location with
  | none => false
  | some l => !(l == "") && !(pyInStr (pyLower l) (pyLower jobLocation))

/-- The `for job in JOB_LISTINGS` loop of `find_jobs`: skip a job the location
guard excludes, append the listing when some user skill is in the job's
skills, otherwise move on. -/
def find_jobs_loop (user_skills : List String) (location : Option String) :
    List JobPosting → List JobListing
  | [] => []
  | job :: rest =>
      if locationExcludes location job.location then
        find_jobs_loop user_skills location rest
      else if user_skills.any (fun skill => job.skills.contains skill) then
        mkJobListing job :: find_jobs_loop user_skills location rest
      else
        find_jobs_loop user_skills location rest

/-- The `find_jobs` tool.  With no skills on file it returns the JSON error
object (embedded as `Except.error`); otherwise the filtered listing list. -/
def find_jobs (wrapper : CareerContext) (location : Option String) :
    CareerContext × Except String (List JobListing) :=
  let user_skills := wrapper.current_skills
  if user_skills.isEmpty then
    (wrapper, Except.error
      "I need to know your skills to find jobs. Please tell me what you\x27re good at first.")
  else
    (wrapper, Except.ok (find_jobs_loop user_skills location JOB_LISTINGS))

/-- Build one `CourseRecommendation` payload for a requested skill and a
catalog course. -/
def mkCourseRec (skill : String) (course : Course) : CourseRecommendation :=
  { skill_to_learn := skill
    course_title := course.title
    platform := course.platform
    link := course.link }

/-- The `for skill in missing_skills` loop of `recommend_courses`, with its
accumulator list: a missing or empty catalog entry (`if courses:` falsy)
appends nothing; otherwise every course of the entry is appended in catalog
order. -/
def recommend_courses_loop (acc : List CourseRecommendation) :
    List String → List CourseRecommendation
  | [] => acc
  | skill :: rest =>
      match dictGet COURSE_CATALOG (pyLower skill) with
      | none => recommend_courses_loop acc rest
      | some courses =>
          if courses.isEmpty then recommend_courses_loop acc rest
          else recommend_courses_loop (acc ++ courses.map (mkCourseRec skill)) rest

/-- The `recommend_courses` tool.  Its Python signature takes only the skill
list — no `RunContextWrapper` — so it has no access to the user context at
all; the returned value is always a (possibly empty) list, never an error
object. -/
def recommend_courses (missing_skills : List String) : List CourseRecommendation :=
  recommend_courses_loop [] missing_skills

/-- The SDK-side invocation boundary for `recommend_courses`: the session's
store is threaded past the call, and the tool body never receives it, so the
store after the call is the store before it. -/
def recommend_courses_invoke (ctx : CareerContext) (missing_skills : List String) :
    CareerContext × List CourseRecommendation :=
  (ctx, recommend_courses missing_skills)

/-- The skill list computed by the Streamlit `Save Skills` handler:
`[skill.strip() for skill in skills_text.split("\n") if skill.strip()]`. -/
def save_skills (skills_text : String) : List String :=
  ((pySplitNl skills_text).map pyStrip).filter (fun skill => !(skill == ""))

/-- The `Save Skills` button handler: the one sanctioned mutation of the
session's `CareerContext`, replacing `current_skills` wholesale. -/
def saveSkillsHandler (ctx : CareerContext) (skills_text : String) : CareerContext :=
  { ctx with current_skills := save_skills skills_text }

/-- One entry of the Streamlit `chat_history` (timestamp omitted: wall-clock
text only). -/
structure ChatMessage where
  role : String
  content : String
deriving Repr, DecidableEq

/-- The terminal output of one turn (`result.final_output`): one of the three
structured payloads or plain text. -/
inductive AgentOutput where
  | gap (a : SkillGapAnalysis)
  | jobs (l : List JobListing)
  | courses (l : List CourseRecommendation)
  | text (s : String)
deriving Repr, DecidableEq

/-- Comma join used by both renderers (`", ".join(...)`). -/
def joinComma (l : List String) : String := String.intercalate ", " l

/-- The Streamlit `format_agent_response` renderer: HTML for each structured
payload; an empty payload list is falsy in Python and falls through to
`str(output)`, rendered here as its list display. -/
def format_agent_response : AgentOutput → String
  | .gap analysis =>
      "<h4>Skill Gap Analysis for: " ++ analysis.target_job ++ "</h4>" ++
      "<p><strong>Your Skills:</strong> " ++ joinComma analysis.user_skills ++ "</p>" ++
      "<p><strong>Required Skills:</strong> " ++ joinComma analysis.required_skills ++ "</p>" ++
      (if analysis.missing_skills.isEmpty then
        "<p><strong>Missing Skills:</strong> None! You\x27re all set.</p>"
      else
        "<p><strong>Missing Skills:</strong> <span style=\x27color: red;\x27>" ++
          joinComma analysis.missing_skills ++ "</span></p>") ++
      "<p><em>" ++ analysis.notes ++ "</em></p>"
  | .jobs [] => "[]"
  | .jobs (job :: rest) =>
      "<h4>Found some job opportunities for you:</h4><ul>" ++
      String.join ((job :: rest).map (fun j =>
        "<li><strong>" ++ j.job_title ++ "</strong> at " ++ j.company ++
          " (" ++ j.location ++ ")</li>" ++
        "<ul><li>Skills: " ++ joinComma j.required_skills ++ "</li></ul>")) ++
      "</ul>"
  | .courses [] => "[]"
  | .courses (course :: rest) =>
      "<h4>Here are some courses to help you learn:</h4><ul>" ++
      String.join ((course :: rest).map (fun c =>
        "<li>To learn <strong>" ++ c.skill_to_learn ++ "</strong>: \x27" ++
          c.course_title ++ "\x27 on " ++ c.platform ++ "</li>")) ++
      "</ul>"
  | .text s => s

/-- The console rendering of `main`'s final-response block (the `isinstance`
dispatch over `result.final_output`; an empty list falls to the `else` print). -/
def render_console : AgentOutput → String
  | .gap analysis =>
      "Skill Gap Analysis for: " ++ analysis.target_job ++ "\n" ++
      "  Your Skills: " ++ joinComma analysis.user_skills ++ "\n" ++
      "  Required Skills: " ++ joinComma analysis.required_skills ++ "\n" ++
      "  >> Missing Skills: " ++
        (if analysis.missing_skills.isEmpty then "None!"
         else joinComma analysis.missing_skills) ++ "\n" ++
      "  Note: " ++ analysis.notes
  | .jobs [] => "[]"
  | .jobs (job :: rest) =>
      "Found some job opportunities for you:" ++
      String.join ((job :: rest).map (fun j =>
        "\n  - " ++ j.job_title ++ " at " ++ j.company ++ " (" ++ j.location ++ ")" ++
        "\n    Skills: " ++ joinComma j.required_skills))
  | .courses [] => "[]"
  | .courses (course :: rest) =>
      "Here are some courses to help you learn:" ++
      String.join ((course :: rest).map (fun c =>
        "\n  - To learn " ++ c.skill_to_learn ++ ": \x27" ++ c.course_title ++
          "\x27 on " ++ c.platform))
  | .text s => s

/-- The Streamlit message-processing step (the `try`/`except` block around the
turn): a successful turn appends the rendered response to the chat history; a
raised exception is caught and appended as a user-visible error message.  The
turn itself is represented by its outcome, `Except.error` being a raised
exception with message `str(e)`. -/
def processing_message (chat_history : List ChatMessage) (turn : Except String AgentOutput) :
    List ChatMessage :=
  match turn with
  | .ok output => chat_history ++ [{ role := "assistant", content := format_agent_response output }]
  | .error e =>
      chat_history ++ [{ role := "assistant", content := "Sorry, I encountered an error: " ++ e }]

/-- One iteration of the script's `main` loop around `Runner.run`:  there is
no `try`/`except`, so a successful turn is printed and a raised exception
propagates out of the iteration (and out of `main`) unhandled. -/
def main_loop_step (turn : Except String AgentOutput) : Except String String :=
  match turn with
  | .ok output => Except.ok (render_console output)
  | .error e => Except.error e


/-! ## Helper lemmas about the embedded operations -/

/-- Membership characterisation of the Boolean `List.contains`. -/
theorem listContains_iff {l : List String} {a : String} : l.contains a = true ↔ a ∈ l := by
  simp [List.contains, List.elem_iff]

/-- The empty needle is a substring of everything, as with Python's `in`. -/
theorem containsSub_nil (l : List Char) : containsSub [] l = true := by
  cases l <;> simp [containsSub, List.isPrefixOf]

/-- Every key of the concrete `JOB_SKILLS` table is found by `dictGet` with
its value, and no value of the table is the empty list. -/
theorem mem_JOB_SKILLS_dictGet {k : String} {v : List String} (h : (k, v) ∈ JOB_SKILLS) :
    dictGet JOB_SKILLS k = some v ∧ v.isEmpty = false := by
  simp only [JOB_SKILLS, List.mem_cons, List.not_mem_nil, or_false, Prod.mk.injEq] at h
  rcases h with ⟨rfl, rfl⟩ | ⟨rfl, rfl⟩ | ⟨rfl, rfl⟩ | ⟨rfl, rfl⟩ <;> exact ⟨by decide, by decide⟩

/-- The skill-overlap guard of `find_jobs` holds exactly when some user skill
is among the job's skills. -/
theorem any_contains_iff (us skills : List String) :
    (us.any (fun skill => skills.contains skill) = true) ↔ ∃ s ∈ us, s ∈ skills := by
  simp [List.any_eq_true, List.contains, List.elem_iff]

/-- Membership characterisation of the `find_jobs` filtering loop: a listing
is produced exactly for the jobs the location guard lets through and whose
skill set meets the user's. -/
theorem mem_find_jobs_loop (us : List String) (loc : Option String) (x : JobListing)
    (jobs : List JobPosting) :
    x ∈ find_jobs_loop us loc jobs ↔
      ∃ j, j ∈ jobs ∧ locationExcludes loc j.location = false ∧
        (∃ s ∈ us, s ∈ j.skills) ∧ x = mkJobListing j := by
  induction jobs with
  | nil => simp [find_jobs_loop]
  | cons job rest ih =>
    by_cases hexc : locationExcludes loc job.location = true
    · have hstep : find_jobs_loop us loc (job :: rest) = find_jobs_loop us loc rest := by
        simp [find_jobs_loop, hexc]
      rw [hstep, ih]
      constructor
      · rintro ⟨j, hj, h1, h2, h3⟩
        exact ⟨j, List.mem_cons_of_mem _ hj, h1, h2, h3⟩
      · rintro ⟨j, hj, h1, h2, h3⟩
        rcases List.mem_cons.mp hj with rfl | hj'
        · simp [hexc] at h1
        · exact ⟨j, hj', h1, h2, h3⟩
    · have hexc' : locationExcludes loc job.location = false := by simpa using hexc
      by_cases hsk : ∃ s ∈ us, s ∈ job.skills
      · have hstep : find_jobs_loop us loc (job :: rest) =
            mkJobListing job :: find_jobs_loop us loc rest := by
          simp [find_jobs_loop, hexc', hsk]
        rw [hstep, List.mem_cons, ih]
        constructor
        · rintro (rfl | ⟨j, hj, h1, h2, h3⟩)
          · exact ⟨job, List.mem_cons_self _ _, hexc', hsk, rfl⟩
          · exact ⟨j, List.mem_cons_of_mem _ hj, h1, h2, h3⟩
        · rintro ⟨j, hj, h1, h2, h3⟩
          rcases List.mem_cons.mp hj with rfl | hj'
          · exact Or.inl h3
          · exact Or.inr ⟨j, hj', h1, h2, h3⟩
      · have hstep : find_jobs_loop us loc (job :: rest) = find_jobs_loop us loc rest := by
          simp [find_jobs_loop, hexc', hsk]
        rw [hstep, ih]
        constructor
        · rintro ⟨j, hj, h1, h2, h3⟩
          exact ⟨j, List.mem_cons_of_mem _ hj, h1, h2, h3⟩
        · rintro ⟨j, hj, h1, h2, h3⟩
          rcases List.mem_cons.mp hj with rfl | hj'
          · exact absurd h2 hsk
          · exact ⟨j, hj', h1, h2, h3⟩

/-- The location guard lets a job through exactly when every given location
argument is a case-insensitive substring of the job's location (a `none` or
empty-string argument excludes nothing, and the empty string is a substring of
everything). -/
theorem locationExcludes_eq_false_iff (loc : Option String) (jl : String) :
    locationExcludes loc jl = false ↔
      ∀ s, loc = some s → pyInStr (pyLower s) (pyLower jl) = true := by
  cases loc with
  | none => simp [locationExcludes]
  | some l =>
    by_cases hl : l = ""
    · subst hl
      constructor
      · intro _ s hs
        injection hs with hs
        subst hs
        exact containsSub_nil _
      · intro _
        simp [locationExcludes]
    · have hbe : (l == "") = false := by simpa using hl
      simp only [locationExcludes, hbe, Bool.not_false, Bool.true_and, Option.some.injEq]
      constructor
      · intro h s hs
        subst hs
        simpa using h
      · intro h
        simpa using h l rfl

/-- Accumulator law of the `recommend_courses` loop. -/
theorem recommend_courses_loop_acc (skills : List String) (acc : List CourseRecommendation) :
    recommend_courses_loop acc skills = acc ++ recommend_courses_loop [] skills := by
  induction skills generalizing acc with
  | nil => simp [recommend_courses_loop]
  | cons skill rest ih =>
    cases hdg : dictGet COURSE_CATALOG (pyLower skill) with
    | none =>
      simp only [recommend_courses_loop, hdg]
      exact ih acc
    | some courses =>
      by_cases hce : courses.isEmpty = true
      · simp only [recommend_courses_loop, hdg, hce, if_true]
        exact ih acc
      · have hce' : courses.isEmpty = false := by simpa using hce
        simp only [recommend_courses_loop, hdg, hce', Bool.false_eq_true, if_false,
          List.nil_append]
        rw [ih (acc ++ courses.map (mkCourseRec skill)), ih (courses.map (mkCourseRec skill)),
          List.append_assoc]

/-- Closed form of `recommend_courses`: one flat map over the requested
skills, each contributing its catalog entry (or nothing) in order. -/
theorem recommend_courses_eq_flatMap (skills : List String) :
    recommend_courses skills = skills.flatMap (fun skill =>
      match dictGet COURSE_CATALOG (pyLower skill) with
      | none => []
      | some courses => courses.map (mkCourseRec skill)) := by
  induction skills with
  | nil => rfl
  | cons skill rest ih =>
    show recommend_courses_loop [] (skill :: rest) = _
    rw [List.flatMap_cons, ← ih]
    cases hdg : dictGet COURSE_CATALOG (pyLower skill) with
    | none =>
      simp only [recommend_courses_loop, hdg, List.nil_append]
      rfl
    | some courses =>
      by_cases hce : courses.isEmpty = true
      · have hc : courses = [] := List.isEmpty_iff.mp hce
        subst hc
        simp only [recommend_courses_loop, hdg, hce, if_true, List.map_nil, List.nil_append]
        rfl
      · have hce' : courses.isEmpty = false := by simpa using hce
        simp only [recommend_courses_loop, hdg, hce', Bool.false_eq_true, if_false,
          List.nil_append]
        exact recommend_courses_loop_acc rest (courses.map (mkCourseRec skill))

/-! ## Claim theorems -/

/-- Claim C1: for every user context and every target job whose lowercased
name is a key of the job-skills table, `get_missing_skills` succeeds with a
`SkillGapAnalysis` whose `missing_skills` is exactly the set difference
required − possessed (the table's required list filtered to the skills the
user lacks, preserving the table's ordering), and `missing_skills` is empty
iff every required skill is among the user's skills. -/
theorem get_missing_skills_gap_spec (ctx : CareerContext) (target_job : String)
    (required : List String) (h : (pyLower target_job, required) ∈ JOB_SKILLS) :
    ∃ a : SkillGapAnalysis,
      (get_missing_skills ctx target_job).2 = Except.ok a ∧
      a.missing_skills = required.filter (fun skill => !(ctx.current_skills.contains skill)) ∧
      (∀ skill, skill ∈ a.missing_skills ↔ (skill ∈ required ∧ skill ∉ ctx.current_skills)) ∧
      (a.missing_skills = [] ↔ ∀ skill ∈ required, skill ∈ ctx.current_skills) := by
  obtain ⟨hget, hne⟩ := mem_JOB_SKILLS_dictGet h
  have hok : (get_missing_skills ctx target_job).2 = Except.ok
      { target_job := target_job
        user_skills := ctx.current_skills
        required_skills := required
        missing_skills := required.filter (fun skill => !(ctx.current_skills.contains skill))
        notes :=
          if (required.filter (fun skill => !(ctx.current_skills.contains skill))).isEmpty then
            "You have all the required skills for this role!"
          else
            "You have a good foundation! Focusing on these " ++
              toString (required.filter
                (fun skill => !(ctx.current_skills.contains skill))).length ++
              " skills will be a great next step." } := by
    simp [get_missing_skills, hget, hne]
  refine ⟨_, hok, rfl, ?_, ?_⟩
  · intro skill
    simp [List.mem_filter, List.contains, List.elem_iff]
  · simp [List.filter_eq_nil_iff, List.contains, List.elem_iff]

/-- Witness for C1: the demo context against the role "Data Scientist"
(mixed-case, found via the lowercased key). -/
theorem get_missing_skills_gap_spec_witness :
    ∃ a : SkillGapAnalysis,
      (get_missing_skills
          { user_id := "test_user_01", current_skills := ["Python", "Git", "Data Structures"] }
          "Data Scientist").2 =
        Except.ok a ∧
      a.missing_skills =
        (["Python", "SQL", "Statistics", "Machine Learning", "Pandas", "Scikit-learn"].filter
          (fun skill => !((["Python", "Git", "Data Structures"] : List String).contains skill))) ∧
      (∀ skill, skill ∈ a.missing_skills ↔
        (skill ∈ ["Python", "SQL", "Statistics", "Machine Learning", "Pandas", "Scikit-learn"] ∧
          skill ∉ (["Python", "Git", "Data Structures"] : List String))) ∧
      (a.missing_skills = [] ↔
        ∀ skill ∈ ["Python", "SQL", "Statistics", "Machine Learning", "Pandas", "Scikit-learn"],
          skill ∈ (["Python", "Git", "Data Structures"] : List String)) :=
  get_missing_skills_gap_spec
    { user_id := "test_user_01", current_skills := ["Python", "Git", "Data Structures"] }
    "Data Scientist"
    ["Python", "SQL", "Statistics", "Machine Learning", "Pandas", "Scikit-learn"] (by decide)

/-- Claim C3: with an empty skill list on file, `find_jobs` returns the
structured error value (not an empty job list), whatever the location
argument. -/
theorem find_jobs_requires_skills (ctx : CareerContext) (location : Option String)
    (h : ctx.current_skills = []) :
    (find_jobs ctx location).2 = Except.error
      "I need to know your skills to find jobs. Please tell me what you\x27re good at first." := by
  simp [find_jobs, h]

/-- Witness for C3 at a concrete empty-skill context with a location given. -/
theorem find_jobs_requires_skills_witness :
    (find_jobs { user_id := "fresh-user", current_skills := [] } (some "Remote")).2 =
      Except.error
        "I need to know your skills to find jobs. Please tell me what you\x27re good at first." :=
  find_jobs_requires_skills { user_id := "fresh-user", current_skills := [] } (some "Remote") rfl

/-- Claim C4: for a non-empty skill list, `find_jobs` succeeds and a job of
the static listing contributes its `JobListing` exactly when every given
location argument is a case-insensitive substring of the job's location and
at least one of the job's skills is among the user's skills (OR semantics:
one overlapping skill suffices); consequently every returned listing shares
at least one skill with the user. -/
theorem find_jobs_match_spec (ctx : CareerContext) (location : Option String)
    (h : ctx.current_skills ≠ []) :
    ∃ l, (find_jobs ctx location).2 = Except.ok l ∧
      (∀ x : JobListing, x ∈ l ↔ ∃ job, job ∈ JOB_LISTINGS ∧
        (∀ s, location = some s → pyInStr (pyLower s) (pyLower job.location) = true) ∧
        (∃ skill ∈ ctx.current_skills, skill ∈ job.skills) ∧
        x = mkJobListing job) ∧
      (∀ x ∈ l, ∃ skill ∈ ctx.current_skills, skill ∈ x.required_skills) := by
  have hne : ctx.current_skills.isEmpty = false := by
    cases hcs : ctx.current_skills with
    | nil => exact absurd hcs h
    | cons a t => rfl
  refine ⟨find_jobs_loop ctx.current_skills location JOB_LISTINGS, ?_, ?_, ?_⟩
  · simp [find_jobs, hne]
  · intro x
    rw [mem_find_jobs_loop]
    constructor
    · rintro ⟨j, hj, h1, h2, h3⟩
      exact ⟨j, hj, (locationExcludes_eq_false_iff location j.location).mp h1, h2, h3⟩
    · rintro ⟨j, hj, h1, h2, h3⟩
      exact ⟨j, hj, (locationExcludes_eq_false_iff location j.location).mpr h1, h2, h3⟩
  · intro x hx
    obtain ⟨j, hj, h1, h2, h3⟩ := (mem_find_jobs_loop _ _ _ _).mp hx
    obtain ⟨s, hs, hsj⟩ := h2
    subst h3
    exact ⟨s, hs, hsj⟩

/-- Witness for C4: the demo context with the location filter "Remote". -/
theorem find_jobs_match_spec_witness :
    ∃ l, (find_jobs
          { user_id := "test_user_01", current_skills := ["Python", "Git", "Data Structures"] }
          (some "Remote")).2 =
        Except.ok l ∧
      (∀ x : JobListing, x ∈ l ↔ ∃ job, job ∈ JOB_LISTINGS ∧
        (∀ s, (some "Remote" : Option String) = some s →
          pyInStr (pyLower s) (pyLower job.location) = true) ∧
        (∃ skill ∈ (["Python", "Git", "Data Structures"] : List String), skill ∈ job.skills) ∧
        x = mkJobListing job) ∧
      (∀ x ∈ l, ∃ skill ∈ (["Python", "Git", "Data Structures"] : List String),
        skill ∈ x.required_skills) :=
  find_jobs_match_spec
    { user_id := "test_user_01", current_skills := ["Python", "Git", "Data Structures"] }
    (some "Remote") (by decide)

/-- Claim C5: a target job whose lowercased name is absent from the table
makes `get_missing_skills` return the structured error value carrying its
message — never a result with empty fields — and the role lookup is
case-insensitive: the success/error status depends only on the lowercased
target job. -/
theorem get_missing_skills_unknown_role (ctx : CareerContext) (target_job t1 t2 : String)
    (h : dictGet JOB_SKILLS (pyLower target_job) = none)
    (h12 : pyLower t1 = pyLower t2) :
    (get_missing_skills ctx target_job).2 = Except.error
      ("Sorry, I don\x27t have skill information for \x27" ++ target_job ++
        "\x27. Please try another role.") ∧
    (get_missing_skills ctx t1).2.isOk = (get_missing_skills ctx t2).2.isOk := by
  constructor
  · simp [get_missing_skills, h]
  · simp only [get_missing_skills]
    rw [h12]
    rcases hdg : dictGet JOB_SKILLS (pyLower t2) with _ | required
    · simp only [hdg]
      rfl
    · by_cases hr : required.isEmpty = true
      · simp only [hdg]
        rw [if_pos hr, if_pos hr]
        rfl
      · simp only [hdg]
        rw [if_neg hr, if_neg hr]
        rfl

/-- Witness for C5: the unknown role "Astronaut" errors; "Data Scientist" and
"DATA SCIENTIST" have the same success status. -/
theorem get_missing_skills_unknown_role_witness :
    (get_missing_skills { user_id := "test_user_01", current_skills := ["Python"] }
        "Astronaut").2 = Except.error
      ("Sorry, I don\x27t have skill information for \x27" ++ "Astronaut" ++
        "\x27. Please try another role.") ∧
    (get_missing_skills { user_id := "test_user_01", current_skills := ["Python"] }
        "Data Scientist").2.isOk =
      (get_missing_skills { user_id := "test_user_01", current_skills := ["Python"] }
        "DATA SCIENTIST").2.isOk :=
  get_missing_skills_unknown_role { user_id := "test_user_01", current_skills := ["Python"] }
    "Astronaut" "Data Scientist" "DATA SCIENTIST" (by decide) (by decide)

/-- Claim C2: `recommend_courses` flattens per-skill course lists in
skill-then-course order (it distributes over concatenation of the requested
skills), a requested skill with no catalog entry under its lowercased key
contributes nothing, a request in which no skill matches yields exactly the
empty sequence (the return type is a list, never an error object), and a
matched skill contributes its catalog entry in catalog order. -/
theorem recommend_courses_spec (xs ys : List String) (s : String) :
    recommend_courses (xs ++ ys) = recommend_courses xs ++ recommend_courses ys ∧
    (dictGet COURSE_CATALOG (pyLower s) = none → recommend_courses [s] = []) ∧
    ((∀ t ∈ xs, dictGet COURSE_CATALOG (pyLower t) = none) → recommend_courses xs = []) ∧
    (∀ courses, dictGet COURSE_CATALOG (pyLower s) = some courses →
      recommend_courses [s] = courses.map (mkCourseRec s)) := by
  refine ⟨?_, ?_, ?_, ?_⟩
  · rw [recommend_courses_eq_flatMap, recommend_courses_eq_flatMap xs,
      recommend_courses_eq_flatMap ys, List.flatMap_append]
  · intro h
    simp [recommend_courses_eq_flatMap, h]
  · intro h
    rw [recommend_courses_eq_flatMap, List.flatMap_eq_nil_iff]
    intro t ht
    rw [h t ht]
  · intro courses h
    simp [recommend_courses_eq_flatMap, h]

/-- Witness for C2: the demo skills "SQL" and "Pandas" concatenate, the
unmatched skills "Blockchain" and "Haskell" contribute nothing (empty result,
not an error), and "SQL" maps to its catalog entry. -/
theorem recommend_courses_spec_witness :
    recommend_courses (["SQL"] ++ ["Pandas"]) =
      recommend_courses ["SQL"] ++ recommend_courses ["Pandas"] ∧
    recommend_courses ["Blockchain"] = [] ∧
    recommend_courses ["Blockchain", "Haskell"] = [] ∧
    recommend_courses ["SQL"] =
      ([{ title := "Complete SQL Bootcamp", platform := "Udemy",
          link := "udemy.com/course/sql-bootcamp" }] : List Course).map (mkCourseRec "SQL") :=
  ⟨(recommend_courses_spec ["SQL"] ["Pandas"] "SQL").1,
   (recommend_courses_spec [] [] "Blockchain").2.1 (by decide),
   (recommend_courses_spec ["Blockchain", "Haskell"] [] "Blockchain").2.2.1 (by decide),
   (recommend_courses_spec [] [] "SQL").2.2.2
     [{ title := "Complete SQL Bootcamp", platform := "Udemy",
        link := "udemy.com/course/sql-bootcamp" }] (by decide)⟩

/-- Counterexample for C6 as stated: in the script entry point (`main`, which
wraps `Runner.run` in no `try`/`except`), a failure raised during the turn is
not converted into a user-visible message — it propagates out of the loop
iteration as an unhandled fault. -/
theorem main_loop_unhandled_counterexample :
    main_loop_step (Except.error "transport failure") = Except.error "transport failure" ∧
    (main_loop_step (Except.error "transport failure")).isOk = false :=
  ⟨rfl, rfl⟩

/-- Claim C6 as amended: the Streamlit message-processing step catches every
failure raised during the turn and appends a user-visible error message (and
appends the rendered response on success, so it never propagates a fault),
while the script's `main` loop performs no catching and propagates a raised
failure to its caller unchanged. -/
theorem session_error_handling_spec (chat_history : List ChatMessage) (e : String)
    (output : AgentOutput) :
    processing_message chat_history (Except.error e) =
      chat_history ++
        [{ role := "assistant", content := "Sorry, I encountered an error: " ++ e }] ∧
    processing_message chat_history (Except.ok output) =
      chat_history ++ [{ role := "assistant", content := format_agent_response output }] ∧
    main_loop_step (Except.error e) = Except.error e :=
  ⟨rfl, rfl, rfl⟩

/-- Claim C7: no tool invocation mutates the user context.  The two tools
that receive the context store return it unchanged — same `user_id`, same
`current_skills` — in every branch, and `recommend_courses` never even
receives the store, so its invocation leaves it untouched.  (The only
operation that replaces the skill list is `saveSkillsHandler`, the Session
Controller's explicit update.) -/
theorem tools_do_not_mutate_context (ctx : CareerContext) (target_job : String)
    (location : Option String) (skills : List String) :
    ((get_missing_skills ctx target_job).1.user_id = ctx.user_id ∧
     (get_missing_skills ctx target_job).1.current_skills = ctx.current_skills) ∧
    ((find_jobs ctx location).1.user_id = ctx.user_id ∧
     (find_jobs ctx location).1.current_skills = ctx.current_skills) ∧
    (recommend_courses_invoke ctx skills).1 = ctx := by
  refine ⟨?_, ?_, rfl⟩
  · simp only [get_missing_skills]
    rcases hdg : dictGet JOB_SKILLS (pyLower target_job) with _ | required
    · simp [hdg]
    · simp only [hdg]
      by_cases hr : required.isEmpty = true
      · rw [if_pos hr]
        exact ⟨rfl, rfl⟩
      · rw [if_neg hr]
        exact ⟨rfl, rfl⟩
  · simp only [find_jobs]
    by_cases hs : ctx.current_skills.isEmpty = true
    · rw [if_pos hs]
      exact ⟨rfl, rfl⟩
    · rw [if_neg hs]
      exact ⟨rfl, rfl⟩

/-- Counterexample for C8 as stated: saving the text "Python\nPython" through
the Save Skills handler stores the duplicate entry twice — the stored
`current_skills` is not duplicate-free. -/
theorem save_skills_dup_counterexample :
    (saveSkillsHandler { user_id := "user-1", current_skills := [] }
        "Python\nPython").current_skills = ["Python", "Python"] ∧
    ¬ (saveSkillsHandler { user_id := "user-1", current_skills := [] }
        "Python\nPython").current_skills.Nodup := by
  constructor
  · rfl
  · decide

/-- Claim C8 as amended: after an update through the Save Skills handler,
`user_id` is unchanged, no blank entry is stored, and each non-blank skill
occurs in the stored `current_skills` exactly as often as it occurs among the
stripped input lines — duplicates are preserved, not suppressed. -/
theorem save_skills_count_spec (ctx : CareerContext) (text skill : String)
    (h : ¬ skill = "") :
    (saveSkillsHandler ctx text).user_id = ctx.user_id ∧
    "" ∉ (saveSkillsHandler ctx text).current_skills ∧
    (saveSkillsHandler ctx text).current_skills.count skill =
      ((pySplitNl text).map pyStrip).count skill := by
  refine ⟨rfl, ?_, ?_⟩
  · show "" ∉ save_skills text
    unfold save_skills
    intro hmem
    have h2 := (List.mem_filter.mp hmem).2
    simp at h2
  · show (save_skills text).count skill = _
    unfold save_skills
    apply List.count_filter
    simp [h]

/-- Witness for the amended C8 at the duplicated input "Python\nPython". -/
theorem save_skills_count_spec_witness :
    (saveSkillsHandler { user_id := "user-1", current_skills := [] }
        "Python\nPython").user_id = "user-1" ∧
    "" ∉ (saveSkillsHandler { user_id := "user-1", current_skills := [] }
        "Python\nPython").current_skills ∧
    (saveSkillsHandler { user_id := "user-1", current_skills := [] }
        "Python\nPython").current_skills.count "Python" =
      ((pySplitNl "Python\nPython").map pyStrip).count "Python" :=
  save_skills_count_spec { user_id := "user-1", current_skills := [] }
    "Python\nPython" "Python" (by decide)

/-- Claim C9: skill membership is compared by exact, case-sensitive string
equality (only the role key and location go through lowercasing): a user
possessing only the lowercase "python" is still missing the table's "Python"
for "data scientist" — indeed every required skill — and `find_jobs` matches
no job for that user (empty list, not an error), although every listed job
requires "Python". -/
theorem skill_match_case_sensitive :
    (∃ a : SkillGapAnalysis,
      (get_missing_skills { user_id := "user-1", current_skills := ["python"] }
          "data scientist").2 = Except.ok a ∧
      "Python" ∈ a.missing_skills ∧
      a.missing_skills = a.required_skills) ∧
    (find_jobs { user_id := "user-1", current_skills := ["python"] } none).2 =
      Except.ok [] := by
  refine ⟨⟨{ target_job := "data scientist", user_skills := ["python"],
             required_skills := ["Python", "SQL", "Statistics", "Machine Learning",
               "Pandas", "Scikit-learn"],
             missing_skills := ["Python", "SQL", "Statistics", "Machine Learning",
               "Pandas", "Scikit-learn"],
             notes := "You have a good foundation! Focusing on these 6 skills will be a great next step." },
           by rfl, by decide, rfl⟩, by rfl⟩

/-- Claim C10: an empty-string location argument is falsy in the guard, so
`find_jobs` with location `""` behaves exactly as with no location argument,
on every user context (same store, same result). -/
theorem find_jobs_empty_string_location (ctx : CareerContext) :
    find_jobs ctx (some "") = find_jobs ctx none := by
  have hloop : ∀ jobs : List JobPosting, ∀ us : List String,
      find_jobs_loop us (some "") jobs = find_jobs_loop us none jobs := by
    intro jobs
    induction jobs with
    | nil => intro us; rfl
    | cons job rest ih =>
      intro us
      have hexc : locationExcludes (some "") job.location = locationExcludes none job.location := by
        simp [locationExcludes]
      simp only [find_jobs_loop, hexc, ih us]
  simp only [find_jobs]
  by_cases hs : ctx.current_skills.isEmpty = true
  · rw [if_pos hs, if_pos hs]
  · rw [if_neg hs, if_neg hs, hloop]
